import Mathlib

/-!
# Verification of the corrupt-watch complaint platform

Shallow embedding of the complaint-submission subsystem of the
`corrupt-watch` repository:

* the `complaints`, `evidence_files`, `public_logs`, `gov_notes` and
  `user_roles` tables and their row-level-security (RLS) policies, from
  `supabase/migrations/20251117051746_*.sql`,
  `supabase/migrations/20251117052309_*.sql` and the later migration that
  opens public read access ("Anyone can view all complaints");
* the `generate_tracking_code` / `set_tracking_code` trigger functions;
* the client-side submission flow `handleSubmit` and the file-selection
  handler `handleFileChange` from `src/pages/Submit.tsx`;
* the `verify-tracking` and `analyze-complaint` edge functions.

External primitives (Postgres `random()`/`md5`, the browser's SHA-256,
`JSON.parse`, object storage) are modelled as oracle inputs: the md5-based
random source becomes a stream of hexadecimal digits, a file's content hash
and upload outcome are carried on the file input, and the result of
`JSON.parse` on the AI message content is supplied with the gateway
response.  Timestamps, latitude/longitude and `ai_metadata` are omitted:
no verified property mentions them.  The `gen_random_uuid()` primary key
default is modelled by a fresh-id counter on the database state, standing
for the platform's guarantee that generated primary keys are fresh.
-/

namespace CorruptWatch

/-! ## Enumerations (migration `20251117051746`) -/

/-- `app_role` enum: `('citizen', 'government', 'admin')`. -/
inductive AppRole
  | citizen
  | government
  | admin
deriving DecidableEq, Repr, Inhabited

/-- `complaint_category` enum. -/
inductive Category
  | bribery
  | misconduct
  | misuse_of_funds
  | negligence
  | infrastructure
  | other
deriving DecidableEq, Repr, Inhabited

/-- `complaint_status` enum. -/
inductive Status
  | pending
  | in_review
  | verified
  | resolved
  | rejected
deriving DecidableEq, Repr, Inhabited

/-! ## Table rows -/

/-- A row of `public.complaints` (timestamps, coordinates, `ai_metadata`
and the unused `complaint_hash` column omitted). -/
structure Complaint where
  id : Nat
  user_id : Option Nat := none
  is_anonymous : Bool := false
  title : String := ""
  description : String := ""
  category : Category := .other
  urgency_score : Nat := 0
  status : Status := .pending
  location : String := ""
  evidence_hashes : List String := []
  tracking_code : Option String := none
deriving DecidableEq, Repr, Inhabited

/-- A row of `public.evidence_files` (timestamp and surrogate id omitted). -/
structure EvidenceFile where
  complaint_id : Nat
  file_url : String
  file_name : String
  file_type : String
  file_size : Nat
  file_hash : String
deriving DecidableEq, Repr, Inhabited

/-- A row of `public.public_logs` (timestamp and surrogate id omitted). -/
structure PublicLog where
  complaint_id : Nat
  metadata_hash : String
  action : String
deriving DecidableEq, Repr, Inhabited

/-- A row of `public.gov_notes` (timestamp and surrogate id omitted). -/
structure GovNote where
  complaint_id : Nat
  official_id : Option Nat := none
  note : String := ""
deriving DecidableEq, Repr, Inhabited

/-- The database state: the four application tables plus `user_roles`,
and a fresh-id counter modelling `gen_random_uuid()` freshness. -/
structure DB where
  nextId : Nat := 0
  complaints : List Complaint := []
  evidence_files : List EvidenceFile := []
  public_logs : List PublicLog := []
  gov_notes : List GovNote := []
  user_roles : List (Nat × AppRole) := []
deriving DecidableEq, Repr, Inhabited

/-! ## Callers and role lookup -/

/-- The Postgres role a request runs under (`TO anon` / `TO authenticated`
in the policies). -/
inductive DbRole
  | anon
  | authenticated
deriving DecidableEq, Repr, Inhabited

/-- A caller: its Postgres role and `auth.uid()` (none for anonymous). -/
structure Caller where
  role : DbRole
  uid : Option Nat := none
deriving DecidableEq, Repr, Inhabited

/-- `public.has_role(_user_id, _role)`: membership test against
`user_roles`; SQL `auth.uid()` being null makes the `EXISTS` false. -/
def has_role (db : DB) (uid : Option Nat) (r : AppRole) : Bool :=
  match uid with
  | none => false
  | some u => db.user_roles.any (fun p => p.1 == u && p.2 == r)

/-- SQL equality `auth.uid() = user_id`: null on either side is not a
match. -/
def sqlEqUid (a b : Option Nat) : Bool :=
  match a, b with
  | some x, some y => x == y
  | _, _ => false

/-! ## Tracking codes (migration `20251117052309`) -/

/-- The sixteen characters an uppercased md5 hex digit can be:
`upper(substring(md5(random()::text) from 1 for 4))` draws from these. -/
def hexUpperChars : List Char :=
  ['0', '1', '2', '3', '4', '5', '6', '7', '8', '9', 'A', 'B', 'C', 'D', 'E', 'F']

/-- One uppercased hexadecimal digit. -/
def hexUpperChar (d : Fin 16) : Char :=
  hexUpperChars.get (Fin.cast (by decide) d)

/-- Four md5 hex digits, one half of a tracking code. -/
abbrev Quad := Fin 16 × Fin 16 × Fin 16 × Fin 16

/-- The four-character string of one quad. -/
def quadStr (q : Quad) : String :=
  ⟨[hexUpperChar q.1, hexUpperChar q.2.1, hexUpperChar q.2.2.1, hexUpperChar q.2.2.2]⟩

/-- `'CW-' || upper(substring(md5(random()::text) from 1 for 4)) || '-' || ...`:
a candidate tracking code built from two random draws. -/
def mkCode (q1 q2 : Quad) : String :=
  "CW-" ++ quadStr q1 ++ "-" ++ quadStr q2

/-- Whether a character is in the class `[A-Z0-9]`. -/
def isUpperAlnum (c : Char) : Bool :=
  ('A' ≤ c && c ≤ 'Z') || ('0' ≤ c && c ≤ '9')

/-- The regular expression `CW-[A-Z0-9]{4}-[A-Z0-9]{4}` as a decidable
predicate on strings. -/
def matchesTrackingFormat (s : String) : Bool :=
  match s.toList with
  | ['C', 'W', '-', a, b, c, d, '-', e, f, g, h] =>
      [a, b, c, d, e, f, g, h].all isUpperAlnum
  | _ => false

/-- `SELECT EXISTS(SELECT 1 FROM public.complaints WHERE tracking_code = code)`. -/
def codeExistsIn (complaints : List Complaint) (code : String) : Bool :=
  complaints.any (fun r => r.tracking_code == some code)

/-- The retry loop of `generate_tracking_code`, with the random source as
a stream of draws (index `i`) and explicit fuel: `none` means the loop has
not yet exited after `fuel` iterations (the source loop has no bound). -/
def genCodeAux (complaints : List Complaint) (rng : Nat → Quad × Quad) :
    Nat → Nat → Option String
  | 0, _ => none
  | fuel + 1, i =>
      let code := mkCode (rng i).1 (rng i).2
      if codeExistsIn complaints code then genCodeAux complaints rng fuel (i + 1)
      else some code

/-- `public.generate_tracking_code()`: loop from the first draw. -/
def generate_tracking_code (complaints : List Complaint) (rng : Nat → Quad × Quad)
    (fuel : Nat) : Option String :=
  genCodeAux complaints rng fuel 0

/-- `public.set_tracking_code()` BEFORE INSERT trigger: fills the code for
anonymous rows that do not have one. -/
def set_tracking_code (complaints : List Complaint) (rng : Nat → Quad × Quad)
    (fuel : Nat) (new : Complaint) : Option Complaint :=
  if new.is_anonymous && new.tracking_code == none then
    (generate_tracking_code complaints rng fuel).map
      (fun c => { new with tracking_code := some c })
  else some new

/-- The `tracking_code TEXT UNIQUE` column constraint: a non-null code
colliding with a committed row rejects the insert (nulls never collide). -/
def uniqueViolation (complaints : List Complaint) (row : Complaint) : Bool :=
  match row.tracking_code with
  | none => false
  | some c => codeExistsIn complaints c

/-! ## Row-level security policies

All policies of the repository's migrations are included.  Postgres
combines permissive policies for the same command with OR; a policy with
a `TO` clause applies only to requests running under that role, and the
later migration's "Anyone can view all complaints" has no `TO` clause, so
it applies to every role. -/

/-- SELECT on `public.complaints`: OR of
"Users can view own complaints" (authenticated, `auth.uid() = user_id`),
"Government can view all complaints" (authenticated, government or admin),
"Anyone can view complaints with tracking code" (anon, code non-null), and
"Anyone can view all complaints" (`USING (true)`, all roles). -/
def complaintsSelectAllowed (db : DB) (c : Caller) (row : Complaint) : Bool :=
  (c.role == .authenticated && sqlEqUid c.uid row.user_id) ||
  (c.role == .authenticated &&
    (has_role db c.uid .government || has_role db c.uid .admin)) ||
  (c.role == .anon && row.tracking_code != none) ||
  true

/-- INSERT on `public.complaints`: OR of
"Users can insert complaints" (authenticated, `auth.uid() = user_id`) and
"Anyone can insert anonymous complaints" (anon, anonymous with null
`user_id`). -/
def complaintsInsertAllowed (_db : DB) (c : Caller) (row : Complaint) : Bool :=
  (c.role == .authenticated && sqlEqUid c.uid row.user_id) ||
  (c.role == .anon && row.is_anonymous && row.user_id == none)

/-- UPDATE on `public.complaints`: only
"Government can update complaints" (authenticated, government or admin)
exists; a row failing `USING` is simply not visible to the update. -/
def complaintsUpdateAllowed (db : DB) (c : Caller) (_row : Complaint) : Bool :=
  c.role == .authenticated &&
    (has_role db c.uid .government || has_role db c.uid .admin)

/-- INSERT on `public.evidence_files`: OR of
"Users can insert evidence" (authenticated, the referenced complaint is
owned by the caller) and "Anonymous users can insert evidence" (anon, the
referenced complaint is anonymous). -/
def evidenceInsertAllowed (db : DB) (c : Caller) (e : EvidenceFile) : Bool :=
  (c.role == .authenticated && db.complaints.any
    (fun r => r.id == e.complaint_id && sqlEqUid c.uid r.user_id)) ||
  (c.role == .anon && db.complaints.any
    (fun r => r.id == e.complaint_id && r.is_anonymous))

/-- INSERT on `public.public_logs`: RLS is enabled
(`ALTER TABLE public.public_logs ENABLE ROW LEVEL SECURITY`) and the only
policies on the table in any migration are the SELECT policies "Anyone can
view public logs" and "Anonymous users can view public logs", so with no
INSERT policy Postgres denies every insert. -/
def publicLogsInsertAllowed (_c : Caller) : Bool :=
  false

/-! ## The submission flow (`src/pages/Submit.tsx`) -/

/-- The form state relevant to `complaintSchema` (`title`, `description`,
`category`, `location`); the category arrives as the raw select value. -/
structure FormData where
  title : String
  description : String
  category : String
  location : String
deriving DecidableEq, Repr, Inhabited

/-- A file chosen in the submission form, with the outcome of the external
primitives the flow applies to it: `hash` is the SHA-256 content digest
computed by `calculateFileHash`, and `uploadErr` is the storage upload
outcome (`some msg` when `supabase.storage.upload` returns an error). -/
structure FileInput where
  name : String
  ftype : String := ""
  size : Nat := 0
  hash : String
  uploadErr : Option String := none
deriving DecidableEq, Repr, Inhabited

/-- `handleFileChange`: selections that would exceed five files are
rejected in full, otherwise they are appended. -/
def handleFileChange (files selected : List FileInput) : List FileInput :=
  if selected.length + files.length > 5 then files else files ++ selected

/-- The category strings of the submission form's select, parsed the way
`z.enum([...])` accepts them. -/
def parseCategory (s : String) : Option Category :=
  if s = "bribery" then some .bribery
  else if s = "misconduct" then some .misconduct
  else if s = "misuse_of_funds" then some .misuse_of_funds
  else if s = "negligence" then some .negligence
  else if s = "infrastructure" then some .infrastructure
  else if s = "other" then some .other
  else none

/-- `complaintSchema.parse(formData)`: the zod object schema with the
repository's min/max bounds and messages, reporting the first failing
field in declaration order (`error.errors[0].message` is what the caller
surfaces).  The enum message for an invalid category is zod's generated
one, modelled by a fixed string. -/
def complaintSchemaCheck (f : FormData) :
    Except String (String × String × Category × String) :=
  if f.title.length < 10 then .error "Title must be at least 10 characters"
  else if f.title.length > 200 then .error "Title must be less than 200 characters"
  else if f.description.length < 50 then .error "Description must be at least 50 characters"
  else if f.description.length > 5000 then .error "Description must be less than 5000 characters"
  else
    match parseCategory f.category with
    | none => .error "Invalid enum value"
    | some cat =>
        if f.location.length < 3 then .error "Location is required"
        else .ok (f.title, f.description, cat, f.location)

/-- The insert payload built by `handleSubmit`: `user_id` null when
anonymous, `is_anonymous` from the query flag, defaulted status and empty
evidence hashes, `urgency_score: 5`, no tracking code. -/
def mkPayload (caller : Caller) (isAnonymous : Bool) (title descr : String)
    (cat : Category) (loc : String) : Complaint :=
  { id := 0
    user_id := if isAnonymous then none else caller.uid
    is_anonymous := isAnonymous
    title := title
    description := descr
    category := cat
    urgency_score := 5
    status := .pending
    location := loc
    evidence_hashes := []
    tracking_code := none }

/-- The `complaints` insert as executed by the platform: assign a fresh
primary key, run the `set_tracking_code` BEFORE trigger, then evaluate the
RLS `WITH CHECK` and the `tracking_code` UNIQUE constraint; `none` means
the trigger's retry loop has not yet finished. -/
def insertComplaintRow (db : DB) (caller : Caller) (rng : Nat → Quad × Quad)
    (fuel : Nat) (payload : Complaint) : Option (Except String (Complaint × DB)) :=
  match set_tracking_code db.complaints rng fuel { payload with id := db.nextId } with
  | none => none
  | some row =>
      some (if !complaintsInsertAllowed db caller row then
              .error "new row violates row-level security policy for table \x22complaints\x22"
            else if uniqueViolation db.complaints row then
              .error "duplicate key value violates unique constraint \x22complaints_tracking_code_key\x22"
            else
              .ok (row, { db with
                nextId := db.nextId + 1
                complaints := db.complaints ++ [row] }))

/-- The storage path `${userId}/${complaint.id}/${file.name}` with
`userId` the literal "anonymous" for anonymous submissions; the public URL
returned by `getPublicUrl` is modelled by the path itself. -/
def evidencePublicUrl (isAnonymous : Bool) (uid : Option Nat) (cid : Nat)
    (fname : String) : String :=
  (if isAnonymous then "anonymous" else
    match uid with
    | some u => toString u
    | none => "undefined") ++ "/" ++ toString cid ++ "/" ++ fname

/-- The per-file loop of `handleSubmit`: push the hash, attempt the
storage upload (an upload error is thrown and aborts the loop), then
insert the `evidence_files` row — whose error the source does not check,
so an RLS denial is silently ignored.  Returns the accumulated hashes, the
database after the processed prefix, and the thrown error if any. -/
def evidenceLoop (db : DB) (caller : Caller) (isAnonymous : Bool) (row : Complaint) :
    List FileInput → List String → List String × DB × Option String
  | [], acc => (acc, db, none)
  | f :: rest, acc =>
      let acc' := acc ++ [f.hash]
      match f.uploadErr with
      | some msg => (acc', db, some msg)
      | none =>
          let e : EvidenceFile :=
            { complaint_id := row.id
              file_url := evidencePublicUrl isAnonymous caller.uid row.id f.name
              file_name := f.name
              file_type := f.ftype
              file_size := f.size
              file_hash := f.hash }
          let db' := if evidenceInsertAllowed db caller e then
              { db with evidence_files := db.evidence_files ++ [e] }
            else db
          evidenceLoop db' caller isAnonymous row rest acc'

/-- The `complaints` update setting `evidence_hashes` for one id: RLS
`USING` filters the rows the update may touch, rows outside it are left
unchanged, and the source does not check this call's error. -/
def updateEvidenceHashes (db : DB) (caller : Caller) (cid : Nat)
    (hs : List String) : DB :=
  { db with complaints := db.complaints.map (fun r =>
      if r.id == cid && complaintsUpdateAllowed db caller r then
        { r with evidence_hashes := hs }
      else r) }

/-- The `public_logs` insert: appended only when RLS allows it (it never
does), and the source does not check this call's error either. -/
def insertPublicLog (db : DB) (caller : Caller) (entry : PublicLog) : DB :=
  if publicLogsInsertAllowed caller then
    { db with public_logs := db.public_logs ++ [entry] }
  else db

/-- The outcome `handleSubmit` surfaces: the first zod issue's message for
validation failures, the thrown error's message for a failed step, or the
inserted complaint row (shown as id or tracking code) on success. -/
inductive SubmitResult
  | validationError (msg : String)
  | submitError (msg : String)
  | success (row : Complaint)
deriving DecidableEq, Repr, Inhabited

/-- `handleSubmit` of `src/pages/Submit.tsx`: validate, insert the
complaint (tracking-code trigger inside), process the files sequentially,
update `evidence_hashes`, append the audit log entry.  `none` means the
flow never completes because the tracking-code loop never exits. -/
def handleSubmit (db : DB) (caller : Caller) (isAnonymous : Bool)
    (form : FormData) (files : List FileInput) (rng : Nat → Quad × Quad)
    (fuel : Nat) : Option (SubmitResult × DB) :=
  match complaintSchemaCheck form with
  | .error msg => some (.validationError msg, db)
  | .ok (title, descr, cat, loc) =>
      match insertComplaintRow db caller rng fuel
          (mkPayload caller isAnonymous title descr cat loc) with
      | none => none
      | some (.error msg) => some (.submitError msg, db)
      | some (.ok (row, db1)) =>
          match evidenceLoop db1 caller isAnonymous row files [] with
          | (_, db2, some msg) => some (.submitError msg, db2)
          | (hashes, db2, none) =>
              let db3 := updateEvidenceHashes db2 caller row.id hashes
              let db4 := insertPublicLog db3 caller
                { complaint_id := row.id
                  metadata_hash := String.intercalate "," hashes
                  action := "complaint_created" }
              some (.success row, db4)

/-! ## Government portal writes (`GovPortal.tsx`) -/

/-- `handleUpdateStatus`: update `status` for one complaint id; RLS lets
only government/admin callers touch rows. -/
def updateStatusOp (db : DB) (caller : Caller) (cid : Nat) (st : Status) : DB :=
  { db with complaints := db.complaints.map (fun r =>
      if r.id == cid && complaintsUpdateAllowed db caller r then
        { r with status := st }
      else r) }

/-- `handleAddNote`: insert into `gov_notes` when the
"Government can insert notes" policy allows it. -/
def addNoteOp (db : DB) (caller : Caller) (cid official : Nat) (note : String) : DB :=
  if caller.role == .authenticated &&
      (has_role db caller.uid .government || has_role db caller.uid .admin) then
    { db with gov_notes := db.gov_notes ++
        [{ complaint_id := cid, official_id := some official, note := note }] }
  else db

/-! ## All repository writes, for the table-level invariants -/

/-- One state-changing request of the application: the submission flow,
the government status update, or a government note.  These are the only
writes to the application tables in the repository's client code. -/
inductive Op
  | submit (caller : Caller) (isAnonymous : Bool) (form : FormData)
      (files : List FileInput) (rng : Nat → Quad × Quad) (fuel : Nat)
  | updateStatus (caller : Caller) (cid : Nat) (st : Status)
  | addNote (caller : Caller) (cid official : Nat) (note : String)

/-- Apply one operation; a submission whose tracking-code loop never
exits commits nothing. -/
def applyOp (db : DB) : Op → DB
  | .submit caller isAnon form files rng fuel =>
      match handleSubmit db caller isAnon form files rng fuel with
      | none => db
      | some (_, db') => db'
  | .updateStatus caller cid st => updateStatusOp db caller cid st
  | .addNote caller cid official note => addNoteOp db caller cid official note

/-- Apply a sequence of operations in order. -/
def applyOps (db : DB) : List Op → DB
  | [] => db
  | op :: rest => applyOps (applyOp db op) rest

/-- The tracking codes present in a table, in row order. -/
def trackingCodes (complaints : List Complaint) : List String :=
  complaints.filterMap (fun r => r.tracking_code)

/-- The table-level uniqueness invariant: no tracking code occurs on two
rows. -/
def codesDistinct (db : DB) : Prop :=
  (trackingCodes db.complaints).Nodup

instance (db : DB) : Decidable (codesDistinct db) := by
  unfold codesDistinct; infer_instance

/-! ## The `verify-tracking` edge function

It runs with the service-role key, so reads bypass RLS; the caller needs
no session, which is how an unauthenticated citizen uses it. -/

/-- The column projection the function selects from `complaints`
(coordinates and timestamps omitted as everywhere in this model): neither
`user_id` nor `is_anonymous` is selected. -/
structure VerifiedComplaint where
  id : Nat
  title : String
  description : String
  category : Category
  status : Status
  location : String
  urgency_score : Nat
  tracking_code : Option String
  evidence : List (String × String × String)
  notes : List String
deriving DecidableEq, Repr, Inhabited

/-- The projection of one complaint row, before the evidence and note
sub-queries are attached. -/
def projectComplaint (r : Complaint) : VerifiedComplaint :=
  { id := r.id
    title := r.title
    description := r.description
    category := r.category
    status := r.status
    location := r.location
    urgency_score := r.urgency_score
    tracking_code := r.tracking_code
    evidence := []
    notes := [] }

/-- Outcomes of the `verify-tracking` request. -/
inductive VerifyOutcome
  | badRequest (msg : String)
  | notFound (msg : String)
  | serverError (msg : String)
  | found (v : VerifiedComplaint)
deriving DecidableEq, Repr, Inhabited

/-- The `verify-tracking` function body: reject a missing code, select the
complaint by `tracking_code` with `maybeSingle` (an error — surfaced as
500 — if several rows match), then attach the evidence-file and note
projections for that complaint id. -/
def verifyTracking (db : DB) (code : String) : VerifyOutcome :=
  if code = "" then .badRequest "Tracking code is required"
  else
    match db.complaints.filter (fun r => r.tracking_code == some code) with
    | [] => .notFound "Complaint not found with this tracking code"
    | [r] =>
        .found { projectComplaint r with
          evidence := (db.evidence_files.filter
              (fun e => e.complaint_id == r.id)).map
            (fun e => (e.file_name, e.file_url, e.file_type))
          notes := (db.gov_notes.filter
              (fun n => n.complaint_id == r.id)).map (fun n => n.note) }
    | _ => .serverError "Failed to fetch complaint"

/-! ## The `analyze-complaint` edge function -/

/-- The AI gateway's HTTP body as the function consumes it: either the
body fails `response.json()` (`notJson`, carrying the raw text), or it
parses to an envelope whose `choices[0].message.content` string is given
together with the oracle outcome of `JSON.parse` on the JSON fragment
extracted from it (`none` when that parse throws). -/
inductive GatewayBody
  | notJson (raw : String)
  | envelope (content : String) (contentJson : Option String)
deriving DecidableEq, Repr, Inhabited

/-- An AI gateway response: HTTP status plus body. -/
structure GatewayResponse where
  status : Nat
  body : GatewayBody
deriving DecidableEq, Repr, Inhabited

/-- `response.ok`: status in [200, 300). -/
def responseOk (status : Nat) : Bool :=
  200 ≤ status && status < 300

/-- The fallback analysis object built when the AI content cannot be
parsed as JSON (`summary` is the first 200 characters of the content). -/
structure FallbackAnalysis where
  urgency_score : Nat
  sentiment : String
  key_issues : List String
  recommended_actions : List String
  patterns : String
  risk_level : String
  summary : String
  raw_response : String
deriving DecidableEq, Repr, Inhabited

/-- The literal fallback of `analyze-complaint/index.ts`. -/
def mkFallback (content : String) : FallbackAnalysis :=
  { urgency_score := 5
    sentiment := "neutral"
    key_issues := ["Analysis pending"]
    recommended_actions := ["Manual review required"]
    patterns := "Unable to determine patterns"
    risk_level := "medium"
    summary := content.take 200
    raw_response := content }

/-- The message of the `SyntaxError` thrown by `response.json()` on a
non-JSON body (external platform text, modelled as a fixed function of the
raw body). -/
def jsonSyntaxError (_raw : String) : String :=
  "Unexpected token in JSON"

/-- What the analysis call returns to its caller: an HTTP error response
with a message, a successfully parsed analysis (the extracted JSON text),
or the fallback object. -/
inductive AnalyzeOutcome
  | httpError (status : Nat) (message : String)
  | okParsed (json : String)
  | okFallback (fb : FallbackAnalysis)
deriving DecidableEq, Repr, Inhabited

/-- The response handling of `analyze-complaint/index.ts`: non-ok 429 and
402 get their dedicated messages, any other non-ok status throws
`AI Gateway error: <status>` (caught and surfaced as a 500), a body that
fails `response.json()` throws (also a 500), content whose JSON fragment
fails `JSON.parse` yields the fallback object, and parsed content is
returned as the analysis. -/
def analyzeComplaint (resp : GatewayResponse) : AnalyzeOutcome :=
  if !responseOk resp.status then
    if resp.status = 429 then
      .httpError 429 "Rate limit exceeded. Please try again later."
    else if resp.status = 402 then
      .httpError 402 "Payment required. Please add credits to continue."
    else
      .httpError 500 ("AI Gateway error: " ++ toString resp.status)
  else
    match resp.body with
    | .notJson raw => .httpError 500 (jsonSyntaxError raw)
    | .envelope content none => .okFallback (mkFallback content)
    | .envelope _ (some j) => .okParsed j

/-! ## Concrete fixtures used by witnesses and counterexamples -/

/-- The empty database. -/
def db0 : DB := {}

/-- Concrete md5 draw "A7B9". -/
def quadA : Quad := (⟨10, by decide⟩, ⟨7, by decide⟩, ⟨11, by decide⟩, ⟨9, by decide⟩)

/-- Concrete md5 draw "12C4". -/
def quadB : Quad := (⟨1, by decide⟩, ⟨2, by decide⟩, ⟨12, by decide⟩, ⟨4, by decide⟩)

/-- A random stream that always draws ("A7B9", "12C4"). -/
def rngA : Nat → Quad × Quad := fun _ => (quadA, quadB)

/-- An unauthenticated caller. -/
def callerAnon : Caller := { role := .anon, uid := none }

/-- Authenticated user 1 with no elevated role. -/
def callerU1 : Caller := { role := .authenticated, uid := some 1 }

/-- Authenticated user 2 with no elevated role. -/
def callerU2 : Caller := { role := .authenticated, uid := some 2 }

/-- A form input satisfying every `complaintSchema` constraint. -/
def formA : FormData :=
  { title := "Bribery at the office"
    description := String.mk (List.replicate 60 'x')
    category := "bribery"
    location := "City Hall" }

/-- An evidence file with content hash "h1" whose upload succeeds. -/
def fileH1 : FileInput := { name := "a.png", hash := "h1" }

/-- An evidence file with content hash "h2" whose upload succeeds. -/
def fileH2 : FileInput := { name := "b.png", hash := "h2" }

/-- An evidence file whose storage upload fails. -/
def fileBad : FileInput := { name := "c.png", hash := "h3", uploadErr := some "upload failed" }

/-! ## Tracking-code generation lemmas -/

theorem hexUpperChar_alnum : ∀ d : Fin 16, isUpperAlnum (hexUpperChar d) = true := by
  decide

theorem mkCode_toList (a b : Quad) :
    (mkCode a b).toList =
      ['C', 'W', '-', hexUpperChar a.1, hexUpperChar a.2.1, hexUpperChar a.2.2.1,
       hexUpperChar a.2.2.2, '-', hexUpperChar b.1, hexUpperChar b.2.1,
       hexUpperChar b.2.2.1, hexUpperChar b.2.2.2] := rfl

theorem mkCode_data (a b : Quad) :
    (mkCode a b).data =
      ['C', 'W', '-', hexUpperChar a.1, hexUpperChar a.2.1, hexUpperChar a.2.2.1,
       hexUpperChar a.2.2.2, '-', hexUpperChar b.1, hexUpperChar b.2.1,
       hexUpperChar b.2.2.1, hexUpperChar b.2.2.2] := rfl

theorem mkCode_matches (a b : Quad) : matchesTrackingFormat (mkCode a b) = true := by
  simp [matchesTrackingFormat, String.toList, mkCode_data, hexUpperChar_alnum]

theorem genCodeAux_sound (tbl : List Complaint) (rng : Nat → Quad × Quad) :
    ∀ fuel i c, genCodeAux tbl rng fuel i = some c →
      codeExistsIn tbl c = false ∧ ∃ j, c = mkCode (rng j).1 (rng j).2 := by
  intro fuel
  induction fuel with
  | zero => intro i c h; simp [genCodeAux] at h
  | succ n ih =>
      intro i c h
      simp only [genCodeAux] at h
      by_cases hx : codeExistsIn tbl (mkCode (rng i).1 (rng i).2) = true
      · rw [if_pos hx] at h
        exact ih (i + 1) c h
      · rw [if_neg hx] at h
        cases h
        exact ⟨Bool.eq_false_iff.mpr hx, i, rfl⟩

theorem genCodeAux_term (tbl : List Complaint) (rng : Nat → Quad × Quad) :
    ∀ k j, codeExistsIn tbl (mkCode (rng (j + k)).1 (rng (j + k)).2) = false →
      ∃ c, genCodeAux tbl rng (k + 1) j = some c := by
  intro k
  induction k with
  | zero =>
      intro j h
      rw [Nat.add_zero] at h
      refine ⟨mkCode (rng j).1 (rng j).2, ?_⟩
      simp only [genCodeAux]
      rw [if_neg (by simp [h])]
  | succ n ih =>
      intro j h
      by_cases hx : codeExistsIn tbl (mkCode (rng j).1 (rng j).2) = true
      · obtain ⟨c, hc⟩ := ih (j + 1) (by
          have : j + 1 + n = j + (n + 1) := by omega
          rw [this]; exact h)
        exact ⟨c, by simp only [genCodeAux]; rw [if_pos hx]; exact hc⟩
      · refine ⟨mkCode (rng j).1 (rng j).2, ?_⟩
        simp only [genCodeAux]
        rw [if_neg hx]

theorem generate_tracking_code_sound (tbl : List Complaint)
    (rng : Nat → Quad × Quad) (fuel : Nat) (c : String)
    (h : generate_tracking_code tbl rng fuel = some c) :
    codeExistsIn tbl c = false ∧ ∃ j, c = mkCode (rng j).1 (rng j).2 :=
  genCodeAux_sound tbl rng fuel 0 c h

/-- C9: the tracking-code generator checks each candidate against the
committed table and only ever returns a code absent from it at check
time; the retry loop has no attempt bound (the fuel argument of the
embedding is extrinsic, `none` meaning the loop is still running), and it
terminates exactly when the random source draws a free code: whenever
some draw of the source is a code unused in the table, some finite fuel
makes the loop exit. -/
theorem retry_loop_sound_and_terminating (tbl : List Complaint)
    (rng : Nat → Quad × Quad)
    (h : ∃ i, codeExistsIn tbl (mkCode (rng i).1 (rng i).2) = false) :
    (∃ fuel c, generate_tracking_code tbl rng fuel = some c) ∧
    (∀ fuel c, generate_tracking_code tbl rng fuel = some c →
      codeExistsIn tbl c = false) := by
  constructor
  · obtain ⟨i, hi⟩ := h
    obtain ⟨c, hc⟩ := genCodeAux_term tbl rng i 0 (by simpa using hi)
    exact ⟨i + 1, c, hc⟩
  · intro fuel c hc
    exact (generate_tracking_code_sound tbl rng fuel c hc).1

/-- A table already holding the tracking code "CW-0000-0000". -/
def tblC9 : List Complaint :=
  [{ id := 0, is_anonymous := true, tracking_code := some "CW-0000-0000" }]

/-- C9 witness: on a table holding one code, the constant stream drawing
"CW-A7B9-12C4" terminates the loop at fuel 1 and the returned code is
free. -/
theorem retry_loop_sound_and_terminating_checked :
    generate_tracking_code tblC9 rngA 1 = some (mkCode quadA quadB) ∧
    codeExistsIn tblC9 (mkCode quadA quadB) = false := by
  refine ⟨by decide, ?_⟩
  exact (retry_loop_sound_and_terminating tblC9 rngA ⟨0, by decide⟩).2 1
    (mkCode quadA quadB) (by decide)

/-- C8 counterexample: a 2xx gateway response whose HTTP body is not JSON
makes `response.json()` throw, so the call surfaces a generic 500 error —
it does not return the fallback analysis object (the fallback only covers
a parsed envelope whose message content is not JSON). -/
theorem nonjson_body_is_500_not_fallback :
    analyzeComplaint ⟨200, .notJson "oops"⟩ =
      .httpError 500 (jsonSyntaxError "oops") ∧
    AnalyzeOutcome.httpError 500 (jsonSyntaxError "oops") ≠
      AnalyzeOutcome.okFallback (mkFallback "oops") := by
  exact ⟨rfl, by decide⟩

/-- C8 amended: status 429 surfaces the rate-limit message and 402 the
payment-required message; a 2xx response whose envelope parses but whose
message content fails JSON extraction returns the defined fallback
object; a 2xx response whose HTTP body itself is not JSON raises and is
surfaced as a 500 error, not the fallback. -/
theorem gateway_status_and_fallback_behaviour (b : GatewayBody)
    (content raw j : String) :
    analyzeComplaint ⟨429, b⟩ =
      .httpError 429 "Rate limit exceeded. Please try again later." ∧
    analyzeComplaint ⟨402, b⟩ =
      .httpError 402 "Payment required. Please add credits to continue." ∧
    analyzeComplaint ⟨200, .envelope content none⟩ =
      .okFallback (mkFallback content) ∧
    analyzeComplaint ⟨200, .envelope content (some j)⟩ = .okParsed j ∧
    analyzeComplaint ⟨200, .notJson raw⟩ =
      .httpError 500 (jsonSyntaxError raw) :=
  ⟨rfl, rfl, rfl, rfl, rfl⟩

/-! ## C7: validation happens before any write -/

theorem complaintSchemaCheck_fails (form : FormData)
    (h : form.title.length < 10 ∨ 200 < form.title.length ∨
         form.description.length < 50 ∨ 5000 < form.description.length ∨
         parseCategory form.category = none ∨ form.location.length < 3) :
    ∃ msg, complaintSchemaCheck form = .error msg := by
  unfold complaintSchemaCheck
  by_cases h1 : form.title.length < 10
  · exact ⟨_, by rw [if_pos h1]⟩
  rw [if_neg h1]
  by_cases h2 : form.title.length > 200
  · exact ⟨_, by rw [if_pos h2]⟩
  rw [if_neg h2]
  by_cases h3 : form.description.length < 50
  · exact ⟨_, by rw [if_pos h3]⟩
  rw [if_neg h3]
  by_cases h4 : form.description.length > 5000
  · exact ⟨_, by rw [if_pos h4]⟩
  rw [if_neg h4]
  cases hcat : parseCategory form.category with
  | none => exact ⟨_, rfl⟩
  | some cat =>
      by_cases h6 : form.location.length < 3
      · exact ⟨"Location is required", by simp only [if_pos h6]⟩
      · exfalso
        rcases h with h | h | h | h | h | h
        · exact h1 h
        · exact h2 h
        · exact h3 h
        · exact h4 h
        · rw [hcat] at h; cases h
        · exact h6 h

/-- C7: a submission whose form violates any `complaintSchema` constraint
(title under 10 or over 200 characters, description under 50 or over 5000,
category outside the enum, location under 3 characters) is rejected with a
validation error before any write: the flow returns the zod message and
the database it returns is the untouched input state. -/
theorem invalid_form_rejected_before_write (db : DB) (caller : Caller)
    (isAnon : Bool) (files : List FileInput) (rng : Nat → Quad × Quad)
    (fuel : Nat) (form : FormData)
    (h : form.title.length < 10 ∨ 200 < form.title.length ∨
         form.description.length < 50 ∨ 5000 < form.description.length ∨
         parseCategory form.category = none ∨ form.location.length < 3) :
    ∃ msg, handleSubmit db caller isAnon form files rng fuel =
      some (.validationError msg, db) := by
  obtain ⟨msg, hm⟩ := complaintSchemaCheck_fails form h
  exact ⟨msg, by unfold handleSubmit; rw [hm]⟩

/-- A form whose title is too short. -/
def formShort : FormData := { formA with title := "short" }

/-- C7 witness: the concrete five-character title is rejected with the
unchanged empty database. -/
theorem invalid_form_rejected_before_write_checked :
    (formShort.title.length < 10 ∨ 200 < formShort.title.length ∨
      formShort.description.length < 50 ∨ 5000 < formShort.description.length ∨
      parseCategory formShort.category = none ∨ formShort.location.length < 3) ∧
    ∃ msg, handleSubmit db0 callerU1 false formShort [] rngA 1 =
      some (.validationError msg, db0) :=
  ⟨Or.inl (by decide),
   invalid_form_rejected_before_write db0 callerU1 false [] rngA 1 formShort
     (Or.inl (by decide))⟩

/-! ## Shape lemmas for the submission flow -/

theorem evidenceLoop_db_spec (caller : Caller) (isAnon : Bool) (row : Complaint) :
    ∀ (files : List FileInput) (acc : List String) (db : DB),
      (evidenceLoop db caller isAnon row files acc).2.1.nextId = db.nextId ∧
      (evidenceLoop db caller isAnon row files acc).2.1.complaints = db.complaints ∧
      (evidenceLoop db caller isAnon row files acc).2.1.public_logs = db.public_logs ∧
      (evidenceLoop db caller isAnon row files acc).2.1.gov_notes = db.gov_notes ∧
      (evidenceLoop db caller isAnon row files acc).2.1.user_roles = db.user_roles ∧
      ∃ new, (evidenceLoop db caller isAnon row files acc).2.1.evidence_files
          = db.evidence_files ++ new ∧ new.length ≤ files.length := by
  intro files
  induction files with
  | nil =>
      intro acc db
      refine ⟨rfl, rfl, rfl, rfl, rfl, [], by simp [evidenceLoop]⟩
  | cons f rest ih =>
      intro acc db
      simp only [evidenceLoop]
      cases hf : f.uploadErr with
      | some msg =>
          refine ⟨rfl, rfl, rfl, rfl, rfl, [], by simp⟩
      | none =>
          dsimp only
          by_cases he : evidenceInsertAllowed db caller
              { complaint_id := row.id
                file_url := evidencePublicUrl isAnon caller.uid row.id f.name
                file_name := f.name
                file_type := f.ftype
                file_size := f.size
                file_hash := f.hash } = true
          · rw [if_pos he]
            obtain ⟨h1, h2, h3, h4, h5, new, hnew, hlen⟩ := ih (acc ++ [f.hash])
              { db with evidence_files := db.evidence_files ++
                  [{ complaint_id := row.id
                     file_url := evidencePublicUrl isAnon caller.uid row.id f.name
                     file_name := f.name
                     file_type := f.ftype
                     file_size := f.size
                     file_hash := f.hash }] }
            refine ⟨h1, h2, h3, h4, h5,
              ({ complaint_id := row.id
                 file_url := evidencePublicUrl isAnon caller.uid row.id f.name
                 file_name := f.name
                 file_type := f.ftype
                 file_size := f.size
                 file_hash := f.hash } :: new), ?_, by simp; omega⟩
            rw [hnew]
            simp
          · rw [if_neg he]
            obtain ⟨h1, h2, h3, h4, h5, new, hnew, hlen⟩ := ih (acc ++ [f.hash]) db
            exact ⟨h1, h2, h3, h4, h5, new, hnew, by simp; omega⟩

theorem set_tracking_code_anon (complaints : List Complaint)
    (rng : Nat → Quad × Quad) (fuel : Nat) (new : Complaint)
    (h1 : new.is_anonymous = true) (h2 : new.tracking_code = none) :
    set_tracking_code complaints rng fuel new =
      (generate_tracking_code complaints rng fuel).map
        (fun c => { new with tracking_code := some c }) := by
  unfold set_tracking_code
  rw [h1, h2]
  simp

theorem set_tracking_code_not_anon (complaints : List Complaint)
    (rng : Nat → Quad × Quad) (fuel : Nat) (new : Complaint)
    (h1 : new.is_anonymous = false) :
    set_tracking_code complaints rng fuel new = some new := by
  unfold set_tracking_code
  rw [h1]
  simp

theorem insertComplaintRow_ok (db : DB) (caller : Caller)
    (rng : Nat → Quad × Quad) (fuel : Nat) (payload row : Complaint) (db1 : DB)
    (h : insertComplaintRow db caller rng fuel payload = some (.ok (row, db1))) :
    db1 = { db with nextId := db.nextId + 1, complaints := db.complaints ++ [row] } ∧
    row.id = db.nextId ∧
    uniqueViolation db.complaints row = false ∧
    (payload.is_anonymous = true → payload.tracking_code = none →
      ∃ c, row.tracking_code = some c ∧ (∃ a b, c = mkCode a b) ∧
        codeExistsIn db.complaints c = false ∧
        row = { payload with id := db.nextId, tracking_code := some c }) ∧
    (payload.is_anonymous = false → row = { payload with id := db.nextId }) := by
  unfold insertComplaintRow at h
  cases hset : set_tracking_code db.complaints rng fuel { payload with id := db.nextId } with
  | none => rw [hset] at h; cases h
  | some row0 =>
      rw [hset] at h
      have hif := Option.some.inj h
      have hr0 : row0 = row ∧
          db1 = { db with nextId := db.nextId + 1,
                          complaints := db.complaints ++ [row0] } ∧
          uniqueViolation db.complaints row0 = false := by
        by_cases ha : complaintsInsertAllowed db caller row0 = true
        · rw [ha] at hif
          simp only [Bool.not_true, Bool.false_eq_true, if_false] at hif
          by_cases hu : uniqueViolation db.complaints row0 = true
          · rw [if_pos hu] at hif; cases hif
          · rw [if_neg hu] at hif
            cases hif
            exact ⟨rfl, rfl, Bool.eq_false_iff.mpr hu⟩
        · rw [Bool.eq_false_iff.mpr ha] at hif
          simp only [Bool.not_false, if_true] at hif
          cases hif
      obtain ⟨hr0, hdb1, huniq⟩ := hr0
      rw [hr0] at hdb1 huniq hset
      refine ⟨hdb1, ?_, huniq, ?_, ?_⟩
      · unfold set_tracking_code at hset
        split at hset
        · obtain ⟨c, _, hrow⟩ := Option.map_eq_some'.mp hset
          rw [← hrow]
        · exact congrArg Complaint.id (Option.some.inj hset).symm
      · intro hanon htc
        rw [set_tracking_code_anon db.complaints rng fuel _
          (by simpa using hanon) (by simpa using htc)] at hset
        obtain ⟨c, hc, hrow⟩ := Option.map_eq_some'.mp hset
        obtain ⟨hfree, j, hj⟩ := generate_tracking_code_sound _ rng fuel c hc
        exact ⟨c, by rw [← hrow], ⟨(rng j).1, (rng j).2, hj⟩, hfree, by rw [← hrow]⟩
      · intro hanon
        rw [set_tracking_code_not_anon db.complaints rng fuel _
          (by simpa using hanon)] at hset
        exact (Option.some.inj hset).symm

/-- The `evidence_hashes` update touches neither the id nor the tracking
code of any row. -/
theorem updateEvidenceHashes_preserves (db : DB) (caller : Caller) (cid : Nat)
    (hs : List String) (r : Complaint) :
    ((fun r => if r.id == cid && complaintsUpdateAllowed db caller r then
        { r with evidence_hashes := hs } else r) r).id = r.id ∧
    ((fun r => if r.id == cid && complaintsUpdateAllowed db caller r then
        { r with evidence_hashes := hs } else r) r).tracking_code = r.tracking_code := by
  dsimp only
  split <;> exact ⟨rfl, rfl⟩

/-- The audit-log insert never commits: `public_logs` has row-level
security enabled and no INSERT policy. -/
theorem insertPublicLog_eq (db : DB) (caller : Caller) (entry : PublicLog) :
    insertPublicLog db caller entry = db := by
  simp [insertPublicLog, publicLogsInsertAllowed]

/-- Everything the claims need about a completed successful submission:
the final complaints table is the input table plus the returned row, up to
the (RLS-filtered) `evidence_hashes` rewrite which preserves ids and
tracking codes; the audit table is unchanged; at most one evidence row is
added per attached file; the returned row has a fresh id; and its tracking
code is a fresh generated code for anonymous submissions and null
otherwise. -/
theorem handleSubmit_success_spec (db : DB) (caller : Caller) (isAnon : Bool)
    (form : FormData) (files : List FileInput) (rng : Nat → Quad × Quad)
    (fuel : Nat) (row : Complaint) (db' : DB)
    (h : handleSubmit db caller isAnon form files rng fuel =
      some (.success row, db')) :
    (∃ f : Complaint → Complaint,
      (∀ r, (f r).id = r.id ∧ (f r).tracking_code = r.tracking_code) ∧
      db'.complaints = (db.complaints ++ [row]).map f) ∧
    db'.public_logs = db.public_logs ∧
    (∃ new, db'.evidence_files = db.evidence_files ++ new ∧
      new.length ≤ files.length) ∧
    row.id = db.nextId ∧
    uniqueViolation db.complaints row = false ∧
    (isAnon = true → ∃ c, row.tracking_code = some c ∧
      matchesTrackingFormat c = true ∧ codeExistsIn db.complaints c = false) ∧
    (isAnon = false → row.tracking_code = none) := by
  unfold handleSubmit at h
  cases hv : complaintSchemaCheck form with
  | error m => rw [hv] at h; cases h
  | ok v =>
      obtain ⟨title, descr, cat, loc⟩ := v
      rw [hv] at h
      dsimp only at h
      cases hins : insertComplaintRow db caller rng fuel
          (mkPayload caller isAnon title descr cat loc) with
      | none => rw [hins] at h; cases h
      | some res =>
          rw [hins] at h
          cases res with
          | error m => cases h
          | ok p =>
              obtain ⟨row0, db1⟩ := p
              obtain ⟨hdb1, hid, huniq, hanon, hnotanon⟩ :=
                insertComplaintRow_ok db caller rng fuel _ row0 db1 hins
              dsimp only at h
              cases hloop : evidenceLoop db1 caller isAnon row0 files [] with
              | mk hashes q =>
                  obtain ⟨db2, err⟩ := q
                  rw [hloop] at h
                  cases err with
                  | some m => cases h
                  | none =>
                      dsimp only at h
                      rw [insertPublicLog_eq] at h
                      have h2 := Option.some.inj h
                      have hrow : SubmitResult.success row0 = SubmitResult.success row :=
                        congrArg Prod.fst h2
                      have hdb' : updateEvidenceHashes db2 caller row0.id hashes = db' :=
                        congrArg Prod.snd h2
                      have hrr : row0 = row := SubmitResult.success.inj hrow
                      obtain ⟨l1, l2, l3, _, _, new, hnew, hlen⟩ :=
                        (hloop ▸ evidenceLoop_db_spec caller isAnon row0 files [] db1)
                      subst hdb'
                      rw [← hrr]
                      refine ⟨⟨_, fun r =>
                          updateEvidenceHashes_preserves db2 caller row0.id hashes r, ?_⟩,
                        ?_, ⟨new, ?_, hlen⟩, hid, huniq, ?_, ?_⟩
                      · show db2.complaints.map _ = _
                        rw [l2, hdb1]
                      · show db2.public_logs = db.public_logs
                        rw [l3, hdb1]
                      · show db2.evidence_files = db.evidence_files ++ new
                        rw [hnew, hdb1]
                      · intro hA
                        obtain ⟨c, hc, ⟨a, b, hab⟩, hfree, _⟩ :=
                          hanon (by simp [mkPayload, hA]) (by simp [mkPayload])
                        exact ⟨c, hc, hab ▸ mkCode_matches a b, hfree⟩
                      · intro hA
                        have := hnotanon (by simp [mkPayload, hA])
                        rw [this]
                        simp [mkPayload]

/-! ## C1: tracking code non-null iff anonymous, in the committed row -/

/-- C1: for every complaint committed through the submission flow, an
anonymous submission's returned row carries a non-null tracking code
matching `CW-[A-Z0-9]{4}-[A-Z0-9]{4}`, a non-anonymous submission's
tracking code is null, and the row committed to the table keeps that
id and tracking code. -/
theorem submission_tracking_code_iff_anonymous (db : DB) (caller : Caller)
    (isAnon : Bool) (form : FormData) (files : List FileInput)
    (rng : Nat → Quad × Quad) (fuel : Nat) (row : Complaint) (db' : DB)
    (h : handleSubmit db caller isAnon form files rng fuel =
      some (.success row, db')) :
    (isAnon = true → ∃ c, row.tracking_code = some c ∧
      matchesTrackingFormat c = true) ∧
    (isAnon = false → row.tracking_code = none) ∧
    ∃ r ∈ db'.complaints, r.id = row.id ∧ r.tracking_code = row.tracking_code := by
  obtain ⟨⟨f, hf, hmap⟩, _, _, _, _, hA, hNA⟩ :=
    handleSubmit_success_spec db caller isAnon form files rng fuel row db' h
  refine ⟨fun hAn => (hA hAn).imp (fun c hc => ⟨hc.1, hc.2.1⟩), hNA, ?_⟩
  refine ⟨f row, ?_, (hf row).1, (hf row).2⟩
  rw [hmap]
  exact List.mem_map_of_mem f (List.mem_append_right _ (List.mem_singleton_self row))

/-- The concrete anonymous submission of the witness. -/
def flowAnonA : Option (SubmitResult × DB) :=
  handleSubmit db0 callerAnon true formA [] rngA 1

/-- The row returned by `flowAnonA`. -/
def rowA : Complaint :=
  match flowAnonA with
  | some (.success r, _) => r
  | _ => default

/-- The database committed by `flowAnonA`. -/
def dbA : DB :=
  match flowAnonA with
  | some (.success _, d) => d
  | _ => default

/-- C1 witness: the concrete anonymous submission commits and its row
carries a well-formed tracking code. -/
theorem submission_tracking_code_iff_anonymous_checked :
    handleSubmit db0 callerAnon true formA [] rngA 1 = some (.success rowA, dbA) ∧
    ((true = true → ∃ c, rowA.tracking_code = some c ∧
        matchesTrackingFormat c = true) ∧
      (true = false → rowA.tracking_code = none) ∧
      ∃ r ∈ dbA.complaints, r.id = rowA.id ∧ r.tracking_code = rowA.tracking_code) :=
  ⟨by decide,
   submission_tracking_code_iff_anonymous db0 callerAnon true formA [] rngA 1
     rowA dbA (by decide)⟩

/-! ## C3: the audit-log insert never commits -/

/-- The concrete citizen submission (no files) of the C3 theorem. -/
def flowCitizen0 : Option (SubmitResult × DB) :=
  handleSubmit db0 callerU1 false formA [] rngA 1

/-- The row returned by `flowCitizen0`. -/
def rowC : Complaint :=
  match flowCitizen0 with
  | some (.success r, _) => r
  | _ => default

/-- The database committed by `flowCitizen0`. -/
def dbC : DB :=
  match flowCitizen0 with
  | some (.success _, d) => d
  | _ => default

/-- C3 (code bug): a submission completes successfully, yet no
`public_logs` row exists afterwards — `public_logs` has RLS enabled and no
INSERT policy, so the flow's unchecked audit insert is denied for both the
anonymous and the authenticated role and the "complaint_created" entry is
never committed. -/
theorem audit_log_never_committed :
    handleSubmit db0 callerU1 false formA [] rngA 1 = some (.success rowC, dbC) ∧
    dbC.public_logs = [] ∧
    publicLogsInsertAllowed callerU1 = false ∧
    publicLogsInsertAllowed callerAnon = false := by
  exact ⟨by decide, by decide, rfl, rfl⟩

/-! ## C4: the `evidence_hashes` aggregate update never applies -/

/-- The concrete citizen submission with two evidence files. -/
def flowCitizen2 : Option (SubmitResult × DB) :=
  handleSubmit db0 callerU1 false formA [fileH1, fileH2] rngA 1

/-- The row returned by `flowCitizen2`. -/
def rowD : Complaint :=
  match flowCitizen2 with
  | some (.success r, _) => r
  | _ => default

/-- The database committed by `flowCitizen2`. -/
def dbD : DB :=
  match flowCitizen2 with
  | some (.success _, d) => d
  | _ => default

/-- C4 (code bug): a citizen submission with evidence hashes ["h1", "h2"]
commits exactly two `evidence_files` rows for the complaint, in order, but
the complaint row's `evidence_hashes` stays empty: the aggregate update is
restricted by RLS to government/admin callers, silently updates zero rows
for the submitter, and its error is never checked. -/
theorem evidence_hashes_never_aggregated :
    handleSubmit db0 callerU1 false formA [fileH1, fileH2] rngA 1 =
      some (.success rowD, dbD) ∧
    (dbD.evidence_files.filter
      (fun e => e.complaint_id == rowD.id)).map (fun e => e.file_hash) =
        ["h1", "h2"] ∧
    dbD.complaints = [rowD] ∧
    rowD.evidence_hashes = [] ∧
    ["h1", "h2"] ≠ ([] : List String) := by
  exact ⟨by decide, by decide, by decide, by decide, by decide⟩

/-! ## C6: a failing upload aborts the flow without compensation -/

theorem evidenceLoop_err_split (caller : Caller) (isAnon : Bool)
    (row : Complaint) (bad : FileInput) (post : List FileInput) (msg : String)
    (hbad : bad.uploadErr = some msg) :
    ∀ (pre : List FileInput) (acc : List String) (db : DB),
      (∀ f ∈ pre, f.uploadErr = none) →
      evidenceLoop db caller isAnon row (pre ++ bad :: post) acc =
        ((evidenceLoop db caller isAnon row pre acc).1 ++ [bad.hash],
         (evidenceLoop db caller isAnon row pre acc).2.1, some msg) := by
  intro pre
  induction pre with
  | nil =>
      intro acc db _
      simp only [List.nil_append, evidenceLoop]
      rw [hbad]
  | cons f rest ih =>
      intro acc db hpre
      have hf : f.uploadErr = none := hpre f (List.mem_cons_self f rest)
      simp only [List.cons_append, evidenceLoop]
      rw [hf]
      dsimp only
      by_cases he : evidenceInsertAllowed db caller
          { complaint_id := row.id
            file_url := evidencePublicUrl isAnon caller.uid row.id f.name
            file_name := f.name
            file_type := f.ftype
            file_size := f.size
            file_hash := f.hash } = true
      · rw [if_pos he]
        exact ih (acc ++ [f.hash]) _ (fun g hg => hpre g (List.mem_cons_of_mem f hg))
      · rw [if_neg he]
        exact ih (acc ++ [f.hash]) db (fun g hg => hpre g (List.mem_cons_of_mem f hg))

/-- C6: when a storage upload fails mid-flow, after the complaint row and
some evidence rows were committed, the flow performs no compensating
rollback: the complaint row persists, every evidence row committed for the
preceding files persists (at most one per preceding file), the remaining
steps (later uploads, the `evidence_hashes` aggregate update, the audit
entry) are skipped, and the caller is surfaced exactly the failed upload's
error. -/
theorem partial_failure_not_compensated (db : DB) (caller : Caller)
    (isAnon : Bool) (form : FormData) (pre post : List FileInput)
    (bad : FileInput) (msg : String) (rng : Nat → Quad × Quad) (fuel : Nat)
    (title descr : String) (cat : Category) (loc : String)
    (row : Complaint) (db1 : DB)
    (hv : complaintSchemaCheck form = .ok (title, descr, cat, loc))
    (hins : insertComplaintRow db caller rng fuel
      (mkPayload caller isAnon title descr cat loc) = some (.ok (row, db1)))
    (hpre : ∀ f ∈ pre, f.uploadErr = none)
    (hbad : bad.uploadErr = some msg) :
    ∃ db2, handleSubmit db caller isAnon form (pre ++ bad :: post) rng fuel =
        some (.submitError msg, db2) ∧
      db2.complaints = db.complaints ++ [row] ∧
      db2.public_logs = db.public_logs ∧
      ∃ new, db2.evidence_files = db.evidence_files ++ new ∧
        new.length ≤ pre.length := by
  obtain ⟨hdb1, _, _, _, _⟩ := insertComplaintRow_ok db caller rng fuel _ row db1 hins
  refine ⟨(evidenceLoop db1 caller isAnon row pre []).2.1, ?_, ?_, ?_, ?_⟩
  · unfold handleSubmit
    rw [hv]
    dsimp only
    rw [hins]
    dsimp only
    rw [evidenceLoop_err_split caller isAnon row bad post msg hbad pre [] db1 hpre]
  · obtain ⟨_, l2, _, _, _, _⟩ := evidenceLoop_db_spec caller isAnon row pre [] db1
    rw [l2, hdb1]
  · obtain ⟨_, _, l3, _, _, _⟩ := evidenceLoop_db_spec caller isAnon row pre [] db1
    rw [l3, hdb1]
  · obtain ⟨_, _, _, _, _, new, hnew, hlen⟩ :=
      evidenceLoop_db_spec caller isAnon row pre [] db1
    refine ⟨new, ?_, hlen⟩
    rw [hnew, hdb1]

/-- The payload of the witness's anonymous submission. -/
def payloadB : Complaint :=
  mkPayload callerAnon true "Bribery at the office"
    (String.mk (List.replicate 60 'x')) .bribery "City Hall"

/-- The committed complaint insert of the C6 witness run. -/
def insB : Option (Except String (Complaint × DB)) :=
  insertComplaintRow db0 callerAnon rngA 1 payloadB

/-- The row committed by `insB`. -/
def rowB : Complaint :=
  match insB with
  | some (.ok (r, _)) => r
  | _ => default

/-- The database committed by `insB`. -/
def dbB1 : DB :=
  match insB with
  | some (.ok (_, d)) => d
  | _ => default

/-- C6 witness: with one good file committed and the second file's upload
failing, the concrete flow surfaces the upload error while the complaint
row persists. -/
theorem partial_failure_not_compensated_checked :
    complaintSchemaCheck formA = .ok ("Bribery at the office",
      String.mk (List.replicate 60 'x'), Category.bribery, "City Hall") ∧
    insertComplaintRow db0 callerAnon rngA 1 payloadB = some (.ok (rowB, dbB1)) ∧
    (∀ f ∈ [fileH1], f.uploadErr = none) ∧
    fileBad.uploadErr = some "upload failed" ∧
    ∃ db2, handleSubmit db0 callerAnon true formA ([fileH1] ++ fileBad :: []) rngA 1 =
        some (.submitError "upload failed", db2) ∧
      db2.complaints = db0.complaints ++ [rowB] ∧
      db2.public_logs = db0.public_logs ∧
      ∃ new, db2.evidence_files = db0.evidence_files ++ new ∧
        new.length ≤ [fileH1].length := by
  refine ⟨rfl, rfl, by decide, by decide, ?_⟩
  exact partial_failure_not_compensated db0 callerAnon true formA [fileH1] []
    fileBad "upload failed" rngA 1 "Bribery at the office"
    (String.mk (List.replicate 60 'x')) Category.bribery "City Hall" rowB dbB1
    rfl rfl (by decide) (by decide)

/-! ## C2: table-level uniqueness and immutability of tracking codes -/

theorem trackingCodes_map (f : Complaint → Complaint)
    (hf : ∀ r, (f r).tracking_code = r.tracking_code) (l : List Complaint) :
    trackingCodes (l.map f) = trackingCodes l := by
  induction l with
  | nil => rfl
  | cons a t ih =>
      simp only [trackingCodes, List.map_cons, List.filterMap_cons, hf a] at *
      cases a.tracking_code with
      | none => exact ih
      | some c => rw [ih]

theorem trackingCodes_append (l₁ l₂ : List Complaint) :
    trackingCodes (l₁ ++ l₂) = trackingCodes l₁ ++ trackingCodes l₂ :=
  List.filterMap_append l₁ l₂ _

theorem codeExistsIn_iff_mem (l : List Complaint) (c : String) :
    codeExistsIn l c = true ↔ c ∈ trackingCodes l := by
  simp only [codeExistsIn, trackingCodes, List.any_eq_true, List.mem_filterMap,
    beq_iff_eq]

/-- Every reachable `handleSubmit` state change leaves the complaints
table as the old table plus at most one row, up to an id- and
code-preserving rewrite, and any appended row passes the tracking-code
uniqueness constraint against the old table. -/
theorem handleSubmit_complaints_shape (db : DB) (caller : Caller)
    (isAnon : Bool) (form : FormData) (files : List FileInput)
    (rng : Nat → Quad × Quad) (fuel : Nat) (res : SubmitResult) (db' : DB)
    (h : handleSubmit db caller isAnon form files rng fuel = some (res, db')) :
    ∃ (tail : Option Complaint) (f : Complaint → Complaint),
      (∀ r, (f r).id = r.id ∧ (f r).tracking_code = r.tracking_code) ∧
      db'.complaints = (db.complaints ++ tail.toList).map f ∧
      ∀ t ∈ tail.toList, uniqueViolation db.complaints t = false := by
  unfold handleSubmit at h
  cases hv : complaintSchemaCheck form with
  | error m =>
      rw [hv] at h
      obtain ⟨_, hdb⟩ : SubmitResult.validationError m = res ∧ db = db' := by
        have h2 := Option.some.inj h
        exact ⟨congrArg Prod.fst h2, congrArg Prod.snd h2⟩
      exact ⟨none, id, fun r => ⟨rfl, rfl⟩, by simp [← hdb], by simp⟩
  | ok v =>
      obtain ⟨title, descr, cat, loc⟩ := v
      rw [hv] at h
      dsimp only at h
      cases hins : insertComplaintRow db caller rng fuel
          (mkPayload caller isAnon title descr cat loc) with
      | none => rw [hins] at h; cases h
      | some r0 =>
          rw [hins] at h
          cases r0 with
          | error m =>
              have hdb : db = db' := congrArg Prod.snd (Option.some.inj h)
              exact ⟨none, id, fun r => ⟨rfl, rfl⟩, by simp [← hdb], by simp⟩
          | ok p =>
              obtain ⟨row0, db1⟩ := p
              obtain ⟨hdb1, _, huniq, _, _⟩ :=
                insertComplaintRow_ok db caller rng fuel _ row0 db1 hins
              dsimp only at h
              cases hloop : evidenceLoop db1 caller isAnon row0 files [] with
              | mk hashes q =>
                  obtain ⟨db2, err⟩ := q
                  rw [hloop] at h
                  obtain ⟨_, l2, _, _, _, _⟩ :=
                    hloop ▸ evidenceLoop_db_spec caller isAnon row0 files [] db1
                  cases err with
                  | some m =>
                      have hdb : db2 = db' := congrArg Prod.snd (Option.some.inj h)
                      refine ⟨some row0, id, fun r => ⟨rfl, rfl⟩, ?_, ?_⟩
                      · rw [← hdb, l2, hdb1]
                        simp
                      · intro t ht
                        rw [Option.toList_some, List.mem_singleton] at ht
                        rw [ht]
                        exact huniq
                  | none =>
                      dsimp only at h
                      rw [insertPublicLog_eq] at h
                      have hdb : updateEvidenceHashes db2 caller row0.id hashes = db' :=
                        congrArg Prod.snd (Option.some.inj h)
                      refine ⟨some row0, _, fun r =>
                          updateEvidenceHashes_preserves db2 caller row0.id hashes r,
                        ?_, ?_⟩
                      · rw [← hdb]
                        show db2.complaints.map _ = _
                        rw [l2, hdb1]
                        simp
                      · intro t ht
                        rw [Option.toList_some, List.mem_singleton] at ht
                        rw [ht]
                        exact huniq

/-- Every application write preserves the complaints table up to an id-
and code-preserving rewrite plus at most one appended row that passes the
uniqueness constraint. -/
theorem applyOp_complaints_shape (db : DB) (op : Op) :
    ∃ (tail : Option Complaint) (f : Complaint → Complaint),
      (∀ r, (f r).id = r.id ∧ (f r).tracking_code = r.tracking_code) ∧
      (applyOp db op).complaints = (db.complaints ++ tail.toList).map f ∧
      ∀ t ∈ tail.toList, uniqueViolation db.complaints t = false := by
  cases op with
  | submit caller isAnon form files rng fuel =>
      show ∃ _ _, _ ∧
        (match handleSubmit db caller isAnon form files rng fuel with
          | none => db
          | some (_, db') => db').complaints = _ ∧ _
      cases hs : handleSubmit db caller isAnon form files rng fuel with
      | none => exact ⟨none, id, fun r => ⟨rfl, rfl⟩, by simp, by simp⟩
      | some p =>
          obtain ⟨res, db'⟩ := p
          obtain ⟨tail, f, hf, hmap, huniq⟩ :=
            handleSubmit_complaints_shape db caller isAnon form files rng fuel
              res db' hs
          exact ⟨tail, f, hf, hmap, huniq⟩
  | updateStatus caller cid st =>
      refine ⟨none, fun r =>
          if r.id == cid && complaintsUpdateAllowed db caller r then
            { r with status := st } else r, ?_, ?_, by simp⟩
      · intro r; dsimp only; split <;> exact ⟨rfl, rfl⟩
      · show (updateStatusOp db caller cid st).complaints = _
        simp [updateStatusOp]
  | addNote caller cid official note =>
      refine ⟨none, id, fun r => ⟨rfl, rfl⟩, ?_, by simp⟩
      show (addNoteOp db caller cid official note).complaints = _
      unfold addNoteOp
      split <;> simp

theorem codesDistinct_step (db : DB) (op : Op) (h : codesDistinct db) :
    codesDistinct (applyOp db op) := by
  obtain ⟨tail, f, hf, hmap, htail⟩ := applyOp_complaints_shape db op
  unfold codesDistinct at h ⊢
  rw [hmap, trackingCodes_map f (fun r => (hf r).2), trackingCodes_append]
  cases tail with
  | none => simpa [trackingCodes] using h
  | some t =>
      have ht := htail t (by simp)
      cases hc : t.tracking_code with
      | none =>
          have : trackingCodes [t] = [] := by simp [trackingCodes, hc]
          rw [Option.toList_some, this]
          simpa using h
      | some c =>
          have : trackingCodes [t] = [c] := by simp [trackingCodes, hc]
          rw [Option.toList_some, this]
          have hcmem : c ∉ trackingCodes db.complaints := by
            intro hmem
            have hex := (codeExistsIn_iff_mem db.complaints c).mpr hmem
            unfold uniqueViolation at ht
            rw [hc] at ht
            dsimp only at ht
            rw [hex] at ht
            cases ht
          simp only [List.nodup_append, List.nodup_cons, List.nodup_nil,
            List.disjoint_singleton]
          exact ⟨h, ⟨by simp, by simp⟩, by simpa using hcmem⟩

theorem rows_preserved_step (db : DB) (op : Op) :
    ∀ r ∈ db.complaints, ∃ r' ∈ (applyOp db op).complaints,
      r'.id = r.id ∧ r'.tracking_code = r.tracking_code := by
  obtain ⟨tail, f, hf, hmap, _⟩ := applyOp_complaints_shape db op
  intro r hr
  refine ⟨f r, ?_, (hf r).1, (hf r).2⟩
  rw [hmap]
  exact List.mem_map_of_mem f (List.mem_append_left _ hr)

/-- C2: across any sequence of the application's writes, tracking codes
stay pairwise distinct over the whole complaints table (inserting N
anonymous complaints yields N distinct codes), and the tracking code a row
received at insert time is never changed by any later operation. -/
theorem tracking_codes_unique_and_immutable (db : DB) (ops : List Op)
    (h : codesDistinct db) :
    codesDistinct (applyOps db ops) ∧
    ∀ r ∈ db.complaints, ∃ r' ∈ (applyOps db ops).complaints,
      r'.id = r.id ∧ r'.tracking_code = r.tracking_code := by
  induction ops generalizing db with
  | nil => exact ⟨h, fun r hr => ⟨r, hr, rfl, rfl⟩⟩
  | cons op rest ih =>
      obtain ⟨h1, h2⟩ := ih (applyOp db op) (codesDistinct_step db op h)
      refine ⟨h1, fun r hr => ?_⟩
      obtain ⟨r1, hr1, hi1, ht1⟩ := rows_preserved_step db op r hr
      obtain ⟨r2, hr2, hi2, ht2⟩ := h2 r1 hr1
      exact ⟨r2, hr2, by rw [hi2, hi1], by rw [ht2, ht1]⟩

/-- The concrete write sequence of the C2 witness: one anonymous
submission followed by a government-less status update. -/
def opsW : List Op :=
  [Op.submit callerAnon true formA [] rngA 1,
   Op.updateStatus callerU1 0 .resolved]

/-- C2 witness: from the empty table, the concrete write sequence keeps
tracking codes distinct. -/
theorem tracking_codes_unique_and_immutable_checked :
    codesDistinct db0 ∧ codesDistinct (applyOps db0 opsW) :=
  ⟨by decide, (tracking_codes_unique_and_immutable db0 opsW (by decide)).1⟩

/-! ## C5: lookup by tracking code, and who may read by raw id -/

theorem filter_code_eq_singleton (code : String) :
    ∀ (l : List Complaint) (r : Complaint), (trackingCodes l).Nodup → r ∈ l →
      r.tracking_code = some code →
      l.filter (fun x => x.tracking_code == some code) = [r] := by
  intro l
  induction l with
  | nil => intro r _ hr; cases hr
  | cons a t ih =>
      intro r hnd hr hc
      rw [List.filter_cons]
      rcases List.mem_cons.mp hr with rfl | hrt
      · rw [if_pos (by simp [hc])]
        have hnotin : code ∉ trackingCodes t := by
          have : trackingCodes (r :: t) = code :: trackingCodes t := by
            simp [trackingCodes, List.filterMap_cons, hc]
          rw [this] at hnd
          exact (List.nodup_cons.mp hnd).1
        have : t.filter (fun x => x.tracking_code == some code) = [] := by
          rw [List.filter_eq_nil_iff]
          intro x hx hpx
          exact hnotin ((codeExistsIn_iff_mem t code).mp
            (List.any_eq_true.mpr ⟨x, hx, hpx⟩))
        rw [this]
      · have hcodemem : code ∈ trackingCodes t :=
          (codeExistsIn_iff_mem t code).mp
            (List.any_eq_true.mpr ⟨r, hrt, by simp [hc]⟩)
        have hna : ¬(a.tracking_code == some code) = true := by
          intro ha
          have hac : a.tracking_code = some code := by simpa using ha
          have : trackingCodes (a :: t) = code :: trackingCodes t := by
            simp [trackingCodes, List.filterMap_cons, hac]
          rw [this] at hnd
          exact (List.nodup_cons.mp hnd).1 hcodemem
        rw [if_neg hna]
        have hndt : (trackingCodes t).Nodup := by
          cases hat : a.tracking_code with
          | none =>
              have : trackingCodes (a :: t) = trackingCodes t := by
                simp [trackingCodes, List.filterMap_cons, hat]
              rwa [this] at hnd
          | some c0 =>
              have : trackingCodes (a :: t) = c0 :: trackingCodes t := by
                simp [trackingCodes, List.filterMap_cons, hat]
              rw [this] at hnd
              exact (List.nodup_cons.mp hnd).2
        exact ih r hndt hrt hc

/-- C5 counterexample: a non-anonymous complaint owned by user 1 is
readable by authenticated user 2 who holds no government or admin role —
the later migration's "Anyone can view all complaints" policy
(`USING (true)`) makes the SELECT succeed, whereas the claim says it must
fail. -/
theorem open_select_policy_defeats_ownership :
    callerU2.uid ≠ some 1 ∧
    has_role { db0 with complaints := [{ id := 7, user_id := some 1 }] }
      callerU2.uid .government = false ∧
    has_role { db0 with complaints := [{ id := 7, user_id := some 1 }] }
      callerU2.uid .admin = false ∧
    complaintsSelectAllowed { db0 with complaints := [{ id := 7, user_id := some 1 }] }
      callerU2 { id := 7, user_id := some 1 } = true := by
  exact ⟨by decide, by decide, by decide, by decide⟩

/-- C5 amended: lookup by tracking code through the service-role
`verify-tracking` function succeeds with the selected projection, which
carries no owner-identity field (the projection is insensitive to
`user_id`); and a read of any complaint row by any caller is allowed by
the complaints SELECT policies — the public-read policy added by the later
migration grants SELECT to everyone, so no role is required. -/
theorem tracking_lookup_and_open_read (db : DB) (code : String)
    (row : Complaint) (caller : Caller) (target : Complaint)
    (hnd : codesDistinct db) (hmem : row ∈ db.complaints)
    (_hanon : row.is_anonymous = true)
    (hcode : row.tracking_code = some code) (hne : code ≠ "") :
    verifyTracking db code = .found
      { projectComplaint row with
        evidence := (db.evidence_files.filter
            (fun e => e.complaint_id == row.id)).map
          (fun e => (e.file_name, e.file_url, e.file_type))
        notes := (db.gov_notes.filter
            (fun n => n.complaint_id == row.id)).map (fun n => n.note) } ∧
    (∀ u, projectComplaint { row with user_id := u } = projectComplaint row) ∧
    complaintsSelectAllowed db caller target = true := by
  refine ⟨?_, fun u => rfl, by simp [complaintsSelectAllowed]⟩
  unfold verifyTracking
  rw [if_neg hne, filter_code_eq_singleton code db.complaints row hnd hmem hcode]

/-- The one-row database of the C5 witness. -/
def dbE : DB :=
  { db0 with complaints :=
      [{ id := 3, is_anonymous := true, title := "t", tracking_code := some "CW-A7B9-12C4" }] }

/-- C5 witness: the concrete anonymous complaint is found by its tracking
code and any caller passes the SELECT policy. -/
theorem tracking_lookup_and_open_read_checked :
    codesDistinct dbE ∧
    verifyTracking dbE "CW-A7B9-12C4" = .found
      { projectComplaint
          { id := 3, is_anonymous := true, title := "t",
            tracking_code := some "CW-A7B9-12C4" } with
        evidence := [], notes := [] } ∧
    complaintsSelectAllowed dbE callerU2
      { id := 7, user_id := some 1 } = true := by
  refine ⟨by decide, ?_, ?_⟩
  · exact (tracking_lookup_and_open_read dbE "CW-A7B9-12C4"
      { id := 3, is_anonymous := true, title := "t",
        tracking_code := some "CW-A7B9-12C4" } callerU2
      { id := 7, user_id := some 1 } (by decide) (by simp [dbE, db0])
      (by decide) (by decide) (by decide)).1
  · exact (tracking_lookup_and_open_read dbE "CW-A7B9-12C4"
      { id := 3, is_anonymous := true, title := "t",
        tracking_code := some "CW-A7B9-12C4" } callerU2
      { id := 7, user_id := some 1 } (by decide) (by simp [dbE, db0])
      (by decide) (by decide) (by decide)).2.2

/-! ## C10: at most five evidence files per submission -/

theorem foldl_handleFileChange_le (evs : List (List FileInput)) :
    ∀ l : List FileInput, l.length ≤ 5 →
      (evs.foldl handleFileChange l).length ≤ 5 := by
  induction evs with
  | nil => intro l h; simpa using h
  | cons e rest ih =>
      intro l h
      simp only [List.foldl_cons]
      apply ih
      unfold handleFileChange
      split
      · exact h
      · rename_i hle
        simp only [List.length_append]
        omega

/-- C10: a file selection that would bring the attached total above five
is rejected in full (the state is unchanged, none of the newly selected
files is added); any sequence of selections starting from no files keeps
at most five attached; and a submission whose files come from such
selections commits at most five new evidence rows. -/
theorem evidence_selection_capped_at_five (files selected : List FileInput)
    (evs : List (List FileInput)) (db : DB) (caller : Caller) (isAnon : Bool)
    (form : FormData) (rng : Nat → Quad × Quad) (fuel : Nat)
    (row : Complaint) (db' : DB) :
    (selected.length + files.length > 5 →
      handleFileChange files selected = files) ∧
    (evs.foldl handleFileChange []).length ≤ 5 ∧
    (handleSubmit db caller isAnon form (evs.foldl handleFileChange []) rng fuel =
        some (.success row, db') →
      db'.evidence_files.length ≤ db.evidence_files.length + 5) := by
  refine ⟨?_, foldl_handleFileChange_le evs [] (by simp), ?_⟩
  · intro h
    unfold handleFileChange
    rw [if_pos h]
  · intro h
    obtain ⟨_, _, ⟨new, hnew, hlen⟩, _⟩ :=
      handleSubmit_success_spec db caller isAnon form _ rng fuel row db' h
    rw [hnew]
    have hcap := foldl_handleFileChange_le evs [] (by simp)
    simp only [List.length_append]
    omega

/-- Six files already attached would exceed the cap. -/
def filesW : List FileInput := List.replicate 5 fileH1

/-- The selection events of the C10 witness: one selection of one file. -/
def evsW : List (List FileInput) := [[fileH1]]

/-- The result of the concrete capped submission. -/
def flowCapW : Option (SubmitResult × DB) :=
  handleSubmit db0 callerAnon true formA (evsW.foldl handleFileChange []) rngA 1

/-- The row returned by `flowCapW`. -/
def rowW : Complaint :=
  match flowCapW with
  | some (.success r, _) => r
  | _ => default

/-- The database committed by `flowCapW`. -/
def dbW : DB :=
  match flowCapW with
  | some (.success _, d) => d
  | _ => default

/-- C10 witness: a sixth file is rejected in full, the folded selection
stays within five, and the concrete submission commits at most five
evidence rows. -/
theorem evidence_selection_capped_at_five_checked :
    ([fileH2].length + filesW.length > 5) ∧
    handleFileChange filesW [fileH2] = filesW ∧
    (evsW.foldl handleFileChange []).length ≤ 5 ∧
    handleSubmit db0 callerAnon true formA (evsW.foldl handleFileChange []) rngA 1 =
      some (.success rowW, dbW) ∧
    dbW.evidence_files.length ≤ db0.evidence_files.length + 5 := by
  refine ⟨by decide, ?_, ?_, by decide, ?_⟩
  · exact (evidence_selection_capped_at_five filesW [fileH2] evsW db0 callerAnon
      true formA rngA 1 default default).1 (by decide)
  · exact (evidence_selection_capped_at_five filesW [fileH2] evsW db0 callerAnon
      true formA rngA 1 default default).2.1
  · exact (evidence_selection_capped_at_five filesW [fileH2] evsW db0 callerAnon
      true formA rngA 1 rowW dbW).2.2 (by decide)

end CorruptWatch
